import Mathlib

/-!
Verification model of the EmoGo backend (`src/main.py`).

The service is a FastAPI application over four MongoDB collections:
`sentiments`, `gps_coordinates`, `vlogs` and `counters`.  This file embeds
the store state as explicit lists of documents and each endpoint as a pure
function on that state.  MongoDB driver primitives (`find_one_and_update`
with `$inc`/upsert, `insert_one`, `find`, `find_one`, `delete_many`,
`delete_one`) are modelled by list operations with the documented Mongo
semantics; Python string/stdlib primitives used by the code (`str.zfill`,
`str.replace` with a one-character pattern, `str.startswith`, list sort by
key, `datetime.fromisoformat` / `datetime.isoformat`) are modelled by the
`py*` functions below.

Latitude/longitude values are stored and echoed verbatim by the code, with
no arithmetic performed on them, so they are represented by an abstract
value type with decidable equality (`GeoVal`, realised as `Int`); the
MongoDB synthetic `_id` field is likewise outside the model (the only code
touching it, `serialize_mongodb_data`, stringifies it without reading any
other field).
-/

/-- Abstract representation of the float payload values (`LAT`, `LON`).
The code stores and returns them verbatim and never computes with them,
so any type with decidable equality is a faithful carrier. -/
abbrev GeoVal := Int

/-! ## Models of Python / stdlib primitives -/

/-- Python `str.zfill(width)`: left-pad with ASCII zeros up to `width`,
inserting the padding after a leading sign character if present. -/
def pyZfill (s : String) (width : Nat) : String :=
  if width ≤ s.length then s
  else
    match s.data with
    | [] => ⟨List.replicate width '0'⟩
    | c :: rest =>
      if c = '+' ∨ c = '-' then
        ⟨c :: (List.replicate (width - s.length) '0' ++ rest)⟩
      else
        ⟨List.replicate (width - s.length) '0' ++ (c :: rest)⟩

/-- Python `str.replace(old, new)` specialised to a one-character pattern,
as used at `main.py` line 39 (`.replace('Z', '+00:00')`): every occurrence
of the character is replaced. -/
def pyReplaceChar (s : String) (old : Char) (new : String) : String :=
  ⟨(s.data.map (fun a => if a = old then new.data else [a])).flatten⟩

/-- Python `str.startswith(pre)`. -/
def pyStartsWith (s pre : String) : Bool :=
  pre.data.isPrefixOf s.data

/-- Code-point lexicographic `≤` on character lists: the order Python uses
to compare strings. -/
def charListLe : List Char → List Char → Bool
  | [], _ => true
  | _ :: _, [] => false
  | a :: as, b :: bs => if a = b then charListLe as bs else decide (a < b)

/-- Python string `≤` (code-point lexicographic), the comparison underlying
`list.sort(key=...)` on string keys. -/
def pyStrLe (a b : String) : Bool :=
  charListLe a.data b.data

/-- Stable ascending insertion of `a` into a list sorted by `pyStrLe` on
`key`. -/
def insertByKey {α : Type} (key : α → String) (a : α) : List α → List α
  | [] => [a]
  | b :: bs => if pyStrLe (key a) (key b) then a :: b :: bs else b :: insertByKey key a bs

/-- Python `list.sort(key=...)`: stable ascending sort by a string key.
Any stable sort w.r.t. the same total preorder produces the same list;
insertion sort is used here.  No claim in this development depends on the
order among equal keys. -/
def sortByKey {α : Type} (key : α → String) : List α → List α
  | [] => []
  | a :: as => insertByKey key a (sortByKey key as)

/-! ## Model of `datetime` as used by `serialize_mongodb_data` -/

/-- A parsed Python `datetime`: calendar fields plus an optional fixed
UTC offset in minutes. -/
structure PyDateTime where
  year : Nat
  month : Nat
  day : Nat
  hour : Nat
  minute : Nat
  second : Nat
  microsecond : Nat
  tzOffsetMin : Option Int
deriving DecidableEq, Repr

/-- Numeric value of a decimal digit character. -/
def digitVal (c : Char) : Nat := c.toNat - 48

/-- Two decimal digit characters as a number, if both are digits. -/
def twoDigits (a b : Char) : Option Nat :=
  if a.isDigit && b.isDigit then some (10 * digitVal a + digitVal b) else none

/-- Four decimal digit characters as a number, if all are digits. -/
def fourDigits (a b c d : Char) : Option Nat :=
  if a.isDigit && b.isDigit && c.isDigit && d.isDigit then
    some (1000 * digitVal a + 100 * digitVal b + 10 * digitVal c + digitVal d)
  else none

/-- Parse the time-of-day part `HH:MM:SS` with an optional `±HH:MM`
offset suffix, returning `(hour, minute, second, offset)`. -/
def parseTimePart : List Char → Option (Nat × Nat × Nat × Option Int)
  | [h1, h2, ':', m1, m2, ':', s1, s2] => do
    let h ← twoDigits h1 h2
    let m ← twoDigits m1 m2
    let s ← twoDigits s1 s2
    if h ≤ 23 ∧ m ≤ 59 ∧ s ≤ 59 then some (h, m, s, none) else none
  | [h1, h2, ':', m1, m2, ':', s1, s2, sg, o1, o2, ':', o3, o4] => do
    let h ← twoDigits h1 h2
    let m ← twoDigits m1 m2
    let s ← twoDigits s1 s2
    let oh ← twoDigits o1 o2
    let om ← twoDigits o3 o4
    if h ≤ 23 ∧ m ≤ 59 ∧ s ≤ 59 ∧ om ≤ 59 then
      if sg = '+' then some (h, m, s, some ((oh * 60 + om : Nat) : Int))
      else if sg = '-' then some (h, m, s, some (-((oh * 60 + om : Nat) : Int)))
      else none
    else none
  | _ => none

/-- Model of Python `datetime.fromisoformat`, restricted to the forms this
development evaluates: `YYYY-MM-DD`, `YYYY-MM-DDTHH:MM:SS` and
`YYYY-MM-DDTHH:MM:SS±HH:MM` (CPython accepts some further variants, e.g.
fractional seconds; no claim here depends on those, and on every other
input the model returns `none`, matching the `ValueError` branch). -/
def fromisoformat (s : String) : Option PyDateTime :=
  match s.data with
  | [y1, y2, y3, y4, '-', mo1, mo2, '-', d1, d2] => do
    let y ← fourDigits y1 y2 y3 y4
    let mo ← twoDigits mo1 mo2
    let d ← twoDigits d1 d2
    if 1 ≤ mo ∧ mo ≤ 12 ∧ 1 ≤ d ∧ d ≤ 31 then
      some ⟨y, mo, d, 0, 0, 0, 0, none⟩
    else none
  | y1 :: y2 :: y3 :: y4 :: '-' :: mo1 :: mo2 :: '-' :: d1 :: d2 :: 'T' :: rest => do
    let y ← fourDigits y1 y2 y3 y4
    let mo ← twoDigits mo1 mo2
    let d ← twoDigits d1 d2
    let (h, mi, se, tz) ← parseTimePart rest
    if 1 ≤ mo ∧ mo ≤ 12 ∧ 1 ≤ d ∧ d ≤ 31 then
      some ⟨y, mo, d, h, mi, se, 0, tz⟩
    else none
  | _ => none

/-- Left-pad a natural number's decimal form with zeros to `w` digits
(helper for `pyIsoformat`). -/
def padNat (n : Nat) (w : Nat) : String :=
  pyZfill (toString n) w

/-- Model of Python `datetime.isoformat()` (the form FastAPI uses to render
a `datetime` into the JSON response). -/
def pyIsoformat (d : PyDateTime) : String :=
  let base := padNat d.year 4 ++ "-" ++ padNat d.month 2 ++ "-" ++ padNat d.day 2
    ++ "T" ++ padNat d.hour 2 ++ ":" ++ padNat d.minute 2 ++ ":" ++ padNat d.second 2
  let frac := if d.microsecond = 0 then "" else "." ++ padNat d.microsecond 6
  let tz :=
    match d.tzOffsetMin with
    | none => ""
    | some off =>
      if 0 ≤ off then "+" ++ padNat (off.toNat / 60) 2 ++ ":" ++ padNat (off.toNat % 60) 2
      else "-" ++ padNat (off.natAbs / 60) 2 ++ ":" ++ padNat (off.natAbs % 60) 2
  base ++ frac ++ tz

/-- A timestamp field value after `serialize_mongodb_data`: either the raw
string (parse failed or field untouched) or a parsed `datetime`. -/
inductive TValue where
  | str (s : String)
  | dt (d : PyDateTime)
deriving DecidableEq, Repr

/-- The timestamp normalization performed by `serialize_mongodb_data`
(`main.py` lines 37-41): replace `'Z'` with `"+00:00"`, attempt an ISO
parse, and on failure keep the original string. -/
def serializeTs (s : String) : TValue :=
  match fromisoformat (pyReplaceChar s 'Z' "+00:00") with
  | some d => TValue.dt d
  | none => TValue.str s

/-! ## Documents and store state -/

/-- A document of the `counters` collection: `_id` is the counter key and
`seq` the stored value (absent on a schemaless document that lacks the
field). -/
structure CounterDoc where
  id : String
  seq : Option Int
deriving DecidableEq, Repr

/-- A stored document of the `sentiments` collection.  Every field is
optional: the collection is schemaless and documents may be inserted by
hand (the handler's own inserts populate all fields). -/
structure SentimentDoc where
  entry_id : Option String
  user_name : Option String
  timestamp : Option String
  sentiment_category : Option String
  activity : Option String
deriving DecidableEq, Repr

/-- A stored document of the `gps_coordinates` collection. -/
structure GpsDoc where
  entry_id : Option String
  user_name : Option String
  timestamp : Option String
  latitude : Option GeoVal
  longitude : Option GeoVal
deriving DecidableEq, Repr

/-- A stored document of the `vlogs` collection. -/
structure VlogDoc where
  entry_id : Option String
  user_name : Option String
  timestamp : Option String
  video_url : Option String
deriving DecidableEq, Repr

/-- A `sentiments` document after `serialize_mongodb_data` (timestamp
possibly parsed into a `datetime`). -/
structure SentimentOut where
  entry_id : Option String
  user_name : Option String
  timestamp : Option TValue
  sentiment_category : Option String
  activity : Option String
deriving DecidableEq, Repr

/-- A `gps_coordinates` document after `serialize_mongodb_data`. -/
structure GpsOut where
  entry_id : Option String
  user_name : Option String
  timestamp : Option TValue
  latitude : Option GeoVal
  longitude : Option GeoVal
deriving DecidableEq, Repr

/-- A `vlogs` document after `serialize_mongodb_data`. -/
structure VlogOut where
  entry_id : Option String
  user_name : Option String
  timestamp : Option TValue
  video_url : Option String
deriving DecidableEq, Repr

/-- The store state: the four collections of `EmoGoDB`, each a list of
documents in insertion order. -/
structure DB where
  sentiments : List SentimentDoc
  gps_coordinates : List GpsDoc
  vlogs : List VlogDoc
  counters : List CounterDoc
deriving DecidableEq, Repr

/-- The validated request body (`class EmoGoData`).  Extra unrecognized
fields are accepted by the Pydantic model (`extra = "allow"`) but never
read by any handler, so they are not represented. -/
structure EmoGoData where
  NAME : String
  TIME : String
  SENTIMENT : String
  LAT : GeoVal
  LON : GeoVal
  VIDEO_LINK : String
  ACTIVITY : Option String
deriving DecidableEq, Repr

/-- An `HTTPException` surfaced to the client. -/
structure HttpError where
  status : Nat
  detail : String
deriving DecidableEq, Repr

/-! ## Counter-collection primitives -/

/-- First document of the `counters` collection with the given `_id`
(MongoDB keeps `_id` unique; the model tolerates duplicates by taking the
first). -/
def lookupCounter (cs : List CounterDoc) (key : String) : Option CounterDoc :=
  cs.find? (fun c => c.id == key)

/-- Replace the first document with the given `_id`. -/
def updateFirstCounter (cs : List CounterDoc) (key : String) (d : CounterDoc) :
    List CounterDoc :=
  match cs with
  | [] => []
  | c :: rest =>
    if c.id == key then d :: rest else c :: updateFirstCounter rest key d

/-- MongoDB `find_one_and_update({_id: key}, {$inc: {seq: delta}},
upsert=True, return_document=AFTER)`: increment `seq` (a missing field
counts as 0), creating the document when absent, and return the
post-update document. -/
def counterIncUpsert (cs : List CounterDoc) (key : String) (delta : Int) :
    List CounterDoc × CounterDoc :=
  match lookupCounter cs key with
  | some c =>
    let c2 : CounterDoc := ⟨key, some (c.seq.getD 0 + delta)⟩
    (updateFirstCounter cs key c2, c2)
  | none =>
    let c2 : CounterDoc := ⟨key, some delta⟩
    (cs ++ [c2], c2)

/-- The effective stored sequence value for a key: the `seq` of its counter
document, with both a missing document and a missing field reading as 0
(matching `$inc` semantics). -/
def seqVal (cs : List CounterDoc) (key : String) : Int :=
  match lookupCounter cs key with
  | some c => c.seq.getD 0
  | none => 0

/-- The guard of `get_next_sequence_value` (`main.py` lines 52-54) applied
to the raw driver result: `None` or a document without `seq` raises. -/
def seqOfRaw (raw : Option CounterDoc) : Except String Int :=
  match raw with
  | none => Except.error "MongoDB failed to return valid sequence value after attempt to increment."
  | some d =>
    match d.seq with
    | none => Except.error "MongoDB failed to return valid sequence value after attempt to increment."
    | some s => Except.ok s

/-- `get_next_sequence_value` (`main.py` lines 44-54) under ideal store
semantics: atomically `$inc` the counter (upserting) and return the
post-increment `seq`. -/
def get_next_sequence_value (cs : List CounterDoc) (key : String) :
    List CounterDoc × Except String Int :=
  let (cs2, d) := counterIncUpsert cs key 1
  (cs2, seqOfRaw (some d))

/-- `N` successive calls of `get_next_sequence_value`, collecting the
returned values. -/
def allocN (cs : List CounterDoc) (key : String) : Nat → List CounterDoc × List (Except String Int)
  | 0 => (cs, [])
  | n + 1 =>
    let (cs2, r) := get_next_sequence_value cs key
    let (cs3, rs) := allocN cs2 key n
    (cs3, r :: rs)

/-! ## Serialization (`serialize_mongodb_data`, `main.py` lines 32-42)

The helper walks a list of documents, stringifies the synthetic `_id`
(outside this model) and re-parses a string `timestamp` field.  One typed
variant is given per collection. -/

/-- `serialize_mongodb_data` on a `sentiments` document. -/
def serialize_sentiment (d : SentimentDoc) : SentimentOut :=
  ⟨d.entry_id, d.user_name, d.timestamp.map serializeTs, d.sentiment_category, d.activity⟩

/-- `serialize_mongodb_data` on a `gps_coordinates` document. -/
def serialize_gps (d : GpsDoc) : GpsOut :=
  ⟨d.entry_id, d.user_name, d.timestamp.map serializeTs, d.latitude, d.longitude⟩

/-- `serialize_mongodb_data` on a `vlogs` document. -/
def serialize_vlog (d : VlogDoc) : VlogOut :=
  ⟨d.entry_id, d.user_name, d.timestamp.map serializeTs, d.video_url⟩

/-- Truthiness of `d.get("entry_id")` as used in the export filters: the
field must be present and a non-empty string. -/
def truthyEntryId : Option String → Bool
  | none => false
  | some s => s ≠ ""

/-! ## Submission (`create_all_data`, `main.py` lines 100-147) -/

/-- The `entry_id` string stored for an allocated integer:
`str(entry_id).zfill(4)` (`main.py` line 113). -/
def entryIdOf (n : Int) : String :=
  pyZfill (toString n) 4

/-- The response body of a successful submission. -/
structure SubmitResponse where
  message : String
  entry_id : String
deriving DecidableEq, Repr

/-- Body of `create_all_data` after the allocator call: on an allocation
error raise HTTP 500 with no write; otherwise build the three documents
from the submitted fields and append each with `insert_one`. -/
def create_all_data_core (db : DB) (data : EmoGoData) (alloc : Except String Int) :
    DB × Except HttpError SubmitResponse :=
  match alloc with
  | Except.error e =>
    (db, Except.error ⟨500, "Failed to generate sequential ID: " ++ e⟩)
  | Except.ok n =>
    let eid := entryIdOf n
    let gps_doc : GpsDoc := ⟨some eid, some data.NAME, some data.TIME, some data.LAT, some data.LON⟩
    let sentiment_doc : SentimentDoc :=
      ⟨some eid, some data.NAME, some data.TIME, some data.SENTIMENT, data.ACTIVITY⟩
    let vlog_doc : VlogDoc := ⟨some eid, some data.NAME, some data.TIME, some data.VIDEO_LINK⟩
    ({ sentiments := db.sentiments ++ [sentiment_doc]
       gps_coordinates := db.gps_coordinates ++ [gps_doc]
       vlogs := db.vlogs ++ [vlog_doc]
       counters := db.counters },
     Except.ok ⟨"Data saved to 3 collections successfully", eid⟩)

/-- `create_all_data` (`main.py` lines 100-147) with an arbitrary raw
driver result for the counter update, to model an infrastructure anomaly
in which the store returns no valid post-update document; `db` is the
store state after that driver call. -/
def create_all_data_withRaw (db : DB) (data : EmoGoData) (raw : Option CounterDoc) :
    DB × Except HttpError SubmitResponse :=
  create_all_data_core db data (seqOfRaw raw)

/-- `create_all_data` under ideal store semantics: allocate the next
sequence value for the fixed key `"emogo_entry_id"`, then fan the
submission out into the three collections. -/
def create_all_data (db : DB) (data : EmoGoData) : DB × Except HttpError SubmitResponse :=
  let (cs2, d) := counterIncUpsert db.counters "emogo_entry_id" 1
  create_all_data_core { db with counters := cs2 } data (seqOfRaw (some d))

/-! ## Export endpoints (`main.py` lines 149-224) -/

/-- Sort key used by both export endpoints: `x.get('entry_id', '')`. -/
def sentOutKey (d : SentimentOut) : String := d.entry_id.getD ""

/-- Sort key for exported gps documents. -/
def gpsOutKey (d : GpsOut) : String := d.entry_id.getD ""

/-- Sort key for exported vlog documents. -/
def vlogOutKey (d : VlogOut) : String := d.entry_id.getD ""

/-- Result of `download_all_json`. -/
structure JsonExport where
  export_time : String
  sentiments : List SentimentOut
  gps : List GpsOut
  vlogs : List VlogOut
deriving DecidableEq, Repr

/-- `download_all_json` (`main.py` lines 149-181): fetch up to 1000
documents per collection, serialize, drop documents without a truthy
`entry_id`, and sort each list by the `entry_id` string.  `now` stands for
`datetime.now()` already formatted. -/
def download_all_json (db : DB) (now : String) : JsonExport :=
  let sentiments_data := (db.sentiments.take 1000).map serialize_sentiment
  let gps_data := (db.gps_coordinates.take 1000).map serialize_gps
  let vlogs_data := (db.vlogs.take 1000).map serialize_vlog
  let sentiments_data := sentiments_data.filter (fun d => truthyEntryId d.entry_id)
  let gps_data := gps_data.filter (fun d => truthyEntryId d.entry_id)
  let vlogs_data := vlogs_data.filter (fun d => truthyEntryId d.entry_id)
  { export_time := now
    sentiments := sortByKey sentOutKey sentiments_data
    gps := sortByKey gpsOutKey gps_data
    vlogs := sortByKey vlogOutKey vlogs_data }

/-- The template context built by `export_all_data` (the `request` object
is framework plumbing and not represented). -/
structure DashboardContext where
  sentiments : List SentimentOut
  gps : List GpsOut
  vlogs : List VlogOut
  current_time : String
deriving DecidableEq, Repr

/-- `export_all_data` (`main.py` lines 187-224): same fetch, serialize,
filter and sort pipeline as `download_all_json`, rendered into the
dashboard template context. -/
def export_all_data (db : DB) (now : String) : DashboardContext :=
  let sentiments_data := (db.sentiments.take 1000).map serialize_sentiment
  let gps_data := (db.gps_coordinates.take 1000).map serialize_gps
  let vlogs_data := (db.vlogs.take 1000).map serialize_vlog
  let sentiments_data := sentiments_data.filter (fun d => truthyEntryId d.entry_id)
  let gps_data := gps_data.filter (fun d => truthyEntryId d.entry_id)
  let vlogs_data := vlogs_data.filter (fun d => truthyEntryId d.entry_id)
  { sentiments := sortByKey sentOutKey sentiments_data
    gps := sortByKey gpsOutKey gps_data
    vlogs := sortByKey vlogOutKey vlogs_data
    current_time := now }

/-! ## Video redirect (`download_video`, `main.py` lines 230-248) -/

/-- The successful response of the video endpoint: an HTTP redirect. -/
structure Redirect where
  status : Nat
  url : String
deriving DecidableEq, Repr

/-- `download_video` (`main.py` lines 230-248): `find_one({entry_id})` on
`vlogs`; 404 when no document matches or `video_url` is missing/empty
(falsy); 500 when the URL starts with `file://` or `content://`; otherwise
a 302 redirect to the stored URL. -/
def download_video (vlogs : List VlogDoc) (entry_id : String) : Except HttpError Redirect :=
  match vlogs.find? (fun d => d.entry_id == some entry_id) with
  | some vlog_entry =>
    match vlog_entry.video_url with
    | some video_url =>
      if video_url = "" then
        Except.error ⟨404, "Video link not found for entry ID: " ++ entry_id⟩
      else if pyStartsWith video_url "file://" || pyStartsWith video_url "content://" then
        Except.error ⟨500, "Stored video link is a local file URI and cannot be served by the public backend."⟩
      else
        Except.ok ⟨302, video_url⟩
    | none => Except.error ⟨404, "Video link not found for entry ID: " ++ entry_id⟩
  | none => Except.error ⟨404, "Video link not found for entry ID: " ++ entry_id⟩

/-! ## Clear-all (`clear_all_data`, `main.py` lines 264-286) -/

/-- The response body of a successful clear-all. -/
structure ClearSummary where
  message : String
  deleted_collections : List String
  counter_status : String
deriving DecidableEq, Repr

/-- The four sequential `delete_many({})` steps of `clear_all_data`, in
source order. -/
inductive ClearStep where
  | sentiments
  | gps
  | vlogs
  | counter
deriving DecidableEq, Repr

/-- Source order of the clear steps, as a comparable index. -/
def ClearStep.idx : ClearStep → Nat
  | .sentiments => 0
  | .gps => 1
  | .vlogs => 2
  | .counter => 3

/-- `clear_all_data` (`main.py` lines 264-286) with failure injection:
`failAt = some s` means the `delete_many` of step `s` raises (the store
refuses the operation, leaving that collection as it was); the steps
before it have already run, the steps after it are skipped, and the
handler's `except` branch raises HTTP 500. -/
def clear_all_data_gen (db : DB) (failAt : Option ClearStep) :
    DB × Except HttpError ClearSummary :=
  let fails : ClearStep → Bool := fun s => failAt == some s
  if fails .sentiments then
    (db, Except.error ⟨500, "Failed to clear data: "⟩)
  else
    let db1 := { db with sentiments := [] }
    if fails .gps then
      (db1, Except.error ⟨500, "Failed to clear data: "⟩)
    else
      let db2 := { db1 with gps_coordinates := [] }
      if fails .vlogs then
        (db2, Except.error ⟨500, "Failed to clear data: "⟩)
      else
        let db3 := { db2 with vlogs := [] }
        if fails .counter then
          (db3, Except.error ⟨500, "Failed to clear data: "⟩)
        else
          ({ db3 with counters := [] },
           Except.ok ⟨"All data cleared successfully.",
                      ["sentiments", "gps_coordinates", "vlogs"], "reset"⟩)

/-- `clear_all_data` on a store that performs all four deletions. -/
def clear_all_data (db : DB) : DB × Except HttpError ClearSummary :=
  clear_all_data_gen db none

/-! ## Single-entry delete -/

/-- Does a `sentiments` document match the delete query
`{user_name, timestamp}` (exact string equality)? -/
def sentMatch (u t : String) (d : SentimentDoc) : Bool :=
  d.user_name == some u && d.timestamp == some t

/-- Does a `gps_coordinates` document match the delete query? -/
def gpsMatch (u t : String) (d : GpsDoc) : Bool :=
  d.user_name == some u && d.timestamp == some t

/-- Does a `vlogs` document match the delete query? -/
def vlogMatch (u t : String) (d : VlogDoc) : Bool :=
  d.user_name == some u && d.timestamp == some t

/-- Modelled from the spec: the single-entry DELETE endpoint
(`delete_entry(user_name, timestamp)`, spec §4.4 and §6) is not present in
`src/main.py`; this definition follows the spec's words.  Each of the
three record sets drops at most one record whose `(user_name, timestamp)`
matches exactly (`delete_one` semantics: the first match).  If all three
deletes find no matching record the endpoint fails with HTTP 404;
otherwise it compensates by `release` on the fixed allocator key, i.e.
`$inc` of `seq` by -1 (mirroring the allocator's upsert `$inc`). -/
def delete_entry (db : DB) (u t : String) : DB × Except HttpError String :=
  let s2 := db.sentiments.eraseP (sentMatch u t)
  let g2 := db.gps_coordinates.eraseP (gpsMatch u t)
  let v2 := db.vlogs.eraseP (vlogMatch u t)
  let deleted : Nat :=
    (if db.sentiments.any (sentMatch u t) then 1 else 0)
    + (if db.gps_coordinates.any (gpsMatch u t) then 1 else 0)
    + (if db.vlogs.any (vlogMatch u t) then 1 else 0)
  if deleted = 0 then
    (db, Except.error ⟨404, "No entry found for the given user_name and timestamp."⟩)
  else
    let (cs2, _) := counterIncUpsert db.counters "emogo_entry_id" (-1)
    ({ sentiments := s2, gps_coordinates := g2, vlogs := v2, counters := cs2 },
     Except.ok "Entry deleted successfully.")

/-- The `entry_id` string that the next submission on state `db` will
allocate: the post-increment sequence value, zero-padded. -/
def nextEntryId (db : DB) : String :=
  entryIdOf (seqVal db.counters "emogo_entry_id" + 1)

/-- The claimed `entry_id` format, following the spec's words: the decimal
string of the allocated integer zero-padded on the left to width 4, values
of five or more digits kept whole (no truncation).  Stated separately from
`entryIdOf` so that the code's `str(n).zfill(4)` can be compared with it. -/
def zeroPadded4 (n : Nat) : String :=
  ⟨List.replicate (4 - (Nat.repr n).length) '0' ++ (Nat.repr n).data⟩

/-! ## Generic instances and helper lemmas -/

instance {ε α : Type} [DecidableEq ε] [DecidableEq α] : DecidableEq (Except ε α) := fun x y =>
  match x, y with
  | Except.ok a, Except.ok b =>
    if h : a = b then isTrue (by rw [h]) else isFalse (by simp [h])
  | Except.error a, Except.error b =>
    if h : a = b then isTrue (by rw [h]) else isFalse (by simp [h])
  | Except.ok _, Except.error _ => isFalse (by simp)
  | Except.error _, Except.ok _ => isFalse (by simp)

theorem charListLe_total (as bs : List Char) :
    charListLe as bs = true ∨ charListLe bs as = true := by
  induction as generalizing bs with
  | nil => left; rfl
  | cons a as ih =>
    cases bs with
    | nil => right; rfl
    | cons b bs =>
      by_cases hab : a = b
      · subst hab
        rcases ih bs with h | h
        · left; simpa [charListLe] using h
        · right; simpa [charListLe] using h
      · rcases lt_or_gt_of_ne hab with h | h
        · left; simp [charListLe, hab, h]
        · right; simp [charListLe, Ne.symm hab, h]

theorem charListLe_trans {as bs cs : List Char} (h1 : charListLe as bs = true)
    (h2 : charListLe bs cs = true) : charListLe as cs = true := by
  induction as generalizing bs cs with
  | nil => rfl
  | cons a as ih =>
    cases bs with
    | nil => simp [charListLe] at h1
    | cons b bs =>
      cases cs with
      | nil => simp [charListLe] at h2
      | cons c cs =>
        by_cases hab : a = b <;> by_cases hbc : b = c
        · subst hab; subst hbc
          simp only [charListLe, if_pos rfl] at h1 h2 ⊢
          exact ih h1 h2
        · subst hab
          simp only [charListLe, if_pos rfl] at h1
          simp only [charListLe, if_neg hbc, decide_eq_true_eq] at h2
          simp [charListLe, if_neg hbc, h2]
        · subst hbc
          simp only [charListLe, if_neg hab, decide_eq_true_eq] at h1
          simp [charListLe, if_neg hab, h1]
        · simp only [charListLe, if_neg hab, decide_eq_true_eq] at h1
          simp only [charListLe, if_neg hbc, decide_eq_true_eq] at h2
          have hac : a < c := lt_trans h1 h2
          simp [charListLe, ne_of_lt hac, hac]

theorem pyStrLe_total (a b : String) : pyStrLe a b = true ∨ pyStrLe b a = true :=
  charListLe_total a.data b.data

theorem pyStrLe_trans {a b c : String} (h1 : pyStrLe a b = true)
    (h2 : pyStrLe b c = true) : pyStrLe a c = true :=
  charListLe_trans h1 h2

theorem mem_insertByKey {α : Type} (key : α → String) (a x : α) (l : List α) :
    x ∈ insertByKey key a l ↔ x = a ∨ x ∈ l := by
  induction l with
  | nil => simp [insertByKey]
  | cons b bs ih =>
    simp only [insertByKey]
    cases hc : pyStrLe (key a) (key b) with
    | true => simp
    | false =>
      simp only [Bool.false_eq_true, if_false, List.mem_cons, ih]
      tauto

theorem perm_insertByKey {α : Type} (key : α → String) (a : α) (l : List α) :
    (insertByKey key a l).Perm (a :: l) := by
  induction l with
  | nil => simp [insertByKey]
  | cons b bs ih =>
    simp only [insertByKey]
    cases hc : pyStrLe (key a) (key b) with
    | true => simp
    | false =>
      simp only [Bool.false_eq_true, if_false]
      exact (List.Perm.cons b ih).trans (List.Perm.swap a b bs)

theorem perm_sortByKey {α : Type} (key : α → String) (l : List α) :
    (sortByKey key l).Perm l := by
  induction l with
  | nil => rfl
  | cons a as ih =>
    exact (perm_insertByKey key a (sortByKey key as)).trans (List.Perm.cons a ih)

theorem pairwise_insertByKey {α : Type} (key : α → String) (a : α) {l : List α}
    (h : l.Pairwise (fun x y => pyStrLe (key x) (key y) = true)) :
    (insertByKey key a l).Pairwise (fun x y => pyStrLe (key x) (key y) = true) := by
  induction l with
  | nil => simp [insertByKey]
  | cons b bs ih =>
    rcases List.pairwise_cons.mp h with ⟨hb, hbs⟩
    simp only [insertByKey]
    cases hab : pyStrLe (key a) (key b) with
    | true =>
      simp only [if_true]
      refine List.pairwise_cons.mpr ⟨?_, h⟩
      intro x hx
      rcases List.mem_cons.mp hx with rfl | hx
      · exact hab
      · exact pyStrLe_trans hab (hb x hx)
    | false =>
      simp only [Bool.false_eq_true, if_false]
      refine List.pairwise_cons.mpr ⟨?_, ih hbs⟩
      intro x hx
      rcases (mem_insertByKey key a x bs).mp hx with rfl | hx
      · rcases pyStrLe_total (key x) (key b) with h1 | h1
        · exact absurd h1 (by simp [hab])
        · exact h1
      · exact hb x hx

theorem pairwise_sortByKey {α : Type} (key : α → String) (l : List α) :
    (sortByKey key l).Pairwise (fun x y => pyStrLe (key x) (key y) = true) := by
  induction l with
  | nil => exact List.Pairwise.nil
  | cons a as ih => exact pairwise_insertByKey key a ih

theorem mem_sortByKey {α : Type} (key : α → String) (x : α) (l : List α) :
    x ∈ sortByKey key l ↔ x ∈ l :=
  (perm_sortByKey key l).mem_iff

theorem countP_sortByKey {α : Type} (key : α → String) (p : α → Bool) (l : List α) :
    (sortByKey key l).countP p = l.countP p :=
  (perm_sortByKey key l).countP_eq p

theorem all_sortByKey {α : Type} (key : α → String) (p : α → Bool) (l : List α) :
    (sortByKey key l).all p = l.all p := by
  rcases h : l.all p with _ | _
  · rcases List.all_eq_false.mp h with ⟨x, hx, hpx⟩
    exact List.all_eq_false.mpr ⟨x, (mem_sortByKey key x l).mpr hx, hpx⟩
  · refine List.all_eq_true.mpr ?_
    intro x hx
    exact List.all_eq_true.mp h x ((mem_sortByKey key x l).mp hx)

theorem lookupCounter_updateFirst (cs : List CounterDoc) (key : String) (d : CounterDoc)
    (hd : d.id = key) :
    lookupCounter (updateFirstCounter cs key d) key =
      match lookupCounter cs key with
      | some _ => some d
      | none => none := by
  induction cs with
  | nil => rfl
  | cons c rest ih =>
    simp only [updateFirstCounter, lookupCounter, List.find?]
    cases hc : c.id == key with
    | true =>
      simp only [if_true, List.find?, hd]
      simp [lookupCounter, List.find?, hc]
    | false =>
      simp only [Bool.false_eq_true, if_false, List.find?, hc]
      simpa [lookupCounter, List.find?, hc] using ih

theorem counterIncUpsert_spec (cs : List CounterDoc) (key : String) (delta : Int) :
    (counterIncUpsert cs key delta).2 = ⟨key, some (seqVal cs key + delta)⟩ ∧
    seqVal (counterIncUpsert cs key delta).1 key = seqVal cs key + delta := by
  unfold counterIncUpsert seqVal
  cases hc : lookupCounter cs key with
  | some c =>
    refine ⟨rfl, ?_⟩
    simp only
    rw [lookupCounter_updateFirst cs key _ rfl, hc]
    simp
  | none =>
    refine ⟨by simp, ?_⟩
    simp only
    have hfind : lookupCounter (cs ++ [(⟨key, some delta⟩ : CounterDoc)]) key =
        some ⟨key, some delta⟩ := by
      unfold lookupCounter at hc ⊢
      rw [List.find?_append, hc]
      simp [List.find?]
    rw [hfind]
    simp

theorem seqVal_of_lookup_none {cs : List CounterDoc} {key : String}
    (h : lookupCounter cs key = none) : seqVal cs key = 0 := by
  unfold seqVal
  rw [h]

theorem allocN_spec (key : String) (N : Nat) :
    ∀ cs : List CounterDoc,
      (allocN cs key N).2 =
        (List.range N).map (fun i : Nat => Except.ok (seqVal cs key + 1 + (i : Int))) ∧
      seqVal (allocN cs key N).1 key = seqVal cs key + N := by
  induction N with
  | zero => intro cs; simp [allocN]
  | succ n ih =>
    intro cs
    obtain ⟨h2, h1⟩ := counterIncUpsert_spec cs key 1
    rcases hp : counterIncUpsert cs key 1 with ⟨cs2v, dv⟩
    rw [hp] at h2 h1
    simp only at h2 h1
    obtain ⟨hres, hseq⟩ := ih cs2v
    rcases hq : allocN cs2v key n with ⟨cs3v, rsv⟩
    rw [hq] at hres hseq
    simp only at hres hseq
    simp only [allocN, get_next_sequence_value, hp, hq]
    subst h2
    refine ⟨?_, ?_⟩
    · rw [hres, h1, List.range_succ_eq_map, List.map_cons, List.map_map]
      congr 1
      · simp [seqOfRaw]
      · refine List.map_congr_left ?_
        intro i _
        simp only [Function.comp_apply, Nat.succ_eq_add_one]
        congr 1
        push_cast
        ring
    · rw [hseq, h1]
      push_cast
      ring

/-! ## Claim C2: the sequence allocator -/

/-- C2: `get_next_sequence_value` atomically `$inc`s the stored `seq` for
the key, creating the counter document at value 1 when it is absent, and
returns the post-increment value; consequently `N` allocations starting
from a state with no counter document return exactly `1, 2, ..., N` (no
duplicates, no gaps). -/
theorem allocator_returns_one_to_N (cs : List CounterDoc) (key : String) (N : Nat)
    (habs : lookupCounter cs key = none) :
    (allocN cs key N).2 = (List.range N).map (fun i : Nat => Except.ok ((i : Int) + 1)) ∧
    get_next_sequence_value cs key = (cs ++ [⟨key, some 1⟩], Except.ok 1) ∧
    (∀ cs2 : List CounterDoc, ∀ c : CounterDoc, lookupCounter cs2 key = some c →
      (get_next_sequence_value cs2 key).2 = Except.ok (c.seq.getD 0 + 1) ∧
      seqVal (get_next_sequence_value cs2 key).1 key = c.seq.getD 0 + 1) := by
  have hz : seqVal cs key = 0 := seqVal_of_lookup_none habs
  refine ⟨?_, ?_, ?_⟩
  · have h := (allocN_spec key N cs).1
    rw [h, hz]
    refine List.map_congr_left ?_
    intro i _
    congr 1
    ring
  · obtain ⟨h2, _⟩ := counterIncUpsert_spec cs key 1
    simp only [get_next_sequence_value]
    rcases hp : counterIncUpsert cs key 1 with ⟨cs2v, dv⟩
    rw [hp] at h2
    simp only at h2
    subst h2
    have hlist : cs2v = cs ++ [⟨key, some (seqVal cs key + 1)⟩] := by
      have : counterIncUpsert cs key 1 = (cs ++ [⟨key, some 1⟩], ⟨key, some 1⟩) := by
        unfold counterIncUpsert
        rw [habs]
      rw [this] at hp
      injection hp with hl hr
      rw [← hl, hz]
      simp
    rw [hlist, hz]
    simp [seqOfRaw]
  · intro cs2 c hc
    obtain ⟨h2, h1⟩ := counterIncUpsert_spec cs2 key 1
    have hv : seqVal cs2 key = c.seq.getD 0 := by
      unfold seqVal
      rw [hc]
    simp only [get_next_sequence_value]
    rcases hp : counterIncUpsert cs2 key 1 with ⟨cs2v, dv⟩
    rw [hp] at h2 h1
    simp only at h2 h1
    subst h2
    rw [hv] at h1
    exact ⟨by simp [seqOfRaw, hv], h1⟩

/-- Witness for C2 at a fresh store and `N = 3`: the three allocations
return 1, 2, 3. -/
theorem allocator_returns_one_to_N_witness :
    lookupCounter [] "emogo_entry_id" = none ∧
    (allocN [] "emogo_entry_id" 3).2 =
      (List.range 3).map (fun i : Nat => Except.ok ((i : Int) + 1)) :=
  ⟨rfl, (allocator_returns_one_to_N [] "emogo_entry_id" 3 rfl).1⟩

/-! ## Claim C4: the entry_id format -/

theorem digitChar_isDigit {m : Nat} (h : m < 10) : (Nat.digitChar m).isDigit = true := by
  interval_cases m <;> decide

theorem toDigitsCore_digits (fuel : Nat) :
    ∀ (n : Nat) (acc : List Char), (∀ c ∈ acc, c.isDigit = true) →
      ∀ c ∈ Nat.toDigitsCore 10 fuel n acc, c.isDigit = true := by
  induction fuel with
  | zero => intro n acc hacc c hc; exact hacc c hc
  | succ f ih =>
    intro n acc hacc c hc
    simp only [Nat.toDigitsCore] at hc
    by_cases hnz : n / 10 = 0
    · rw [if_pos hnz] at hc
      rcases List.mem_cons.mp hc with rfl | hc
      · exact digitChar_isDigit (Nat.mod_lt n (by norm_num))
      · exact hacc c hc
    · rw [if_neg hnz] at hc
      refine ih (n / 10) (Nat.digitChar (n % 10) :: acc) ?_ c hc
      intro d hd
      rcases List.mem_cons.mp hd with rfl | hd
      · exact digitChar_isDigit (Nat.mod_lt n (by norm_num))
      · exact hacc d hd

theorem toDigitsCore_ne_nil (fuel : Nat) :
    ∀ (n : Nat) (acc : List Char), acc ≠ [] → Nat.toDigitsCore 10 fuel n acc ≠ [] := by
  induction fuel with
  | zero => intro n acc hacc; exact hacc
  | succ f ih =>
    intro n acc hacc
    simp only [Nat.toDigitsCore]
    by_cases hnz : n / 10 = 0
    · rw [if_pos hnz]; simp
    · rw [if_neg hnz]
      exact ih (n / 10) _ (by simp)

theorem repr_digits (n : Nat) : ∀ c ∈ (Nat.repr n).data, c.isDigit = true := by
  intro c hc
  have : (Nat.repr n).data = Nat.toDigits 10 n := rfl
  rw [this] at hc
  exact toDigitsCore_digits (n + 1) n [] (by simp) c hc

theorem repr_data_ne_nil (n : Nat) : (Nat.repr n).data ≠ [] := by
  have : (Nat.repr n).data = Nat.toDigits 10 n := rfl
  rw [this]
  unfold Nat.toDigits
  simp only [Nat.toDigitsCore]
  by_cases hnz : n / 10 = 0
  · rw [if_pos hnz]; simp
  · rw [if_neg hnz]
    exact toDigitsCore_ne_nil n (n / 10) _ (by simp)

/-- C4: the `entry_id` stored by the submission handler for an allocated
integer `n` is the decimal string of `n` zero-padded on the left to width
4 with no truncation for larger values; allocating 7 yields `"0007"` and
allocating 12345 yields `"12345"`. -/
theorem entry_id_zero_padded (n : Nat) :
    entryIdOf (Int.ofNat n) = zeroPadded4 n ∧
    entryIdOf 7 = "0007" ∧ entryIdOf 12345 = "12345" := by
  refine ⟨?_, by decide, by decide⟩
  have hrepr : toString (Int.ofNat n) = Nat.repr n := rfl
  unfold entryIdOf zeroPadded4 pyZfill
  rw [hrepr]
  by_cases hlen : 4 ≤ (Nat.repr n).length
  · rw [if_pos hlen]
    have h0 : 4 - (Nat.repr n).length = 0 := Nat.sub_eq_zero_of_le hlen
    rw [h0]
    cases hs : Nat.repr n with
    | mk data => simp
  · rw [if_neg hlen]
    cases hd : (Nat.repr n).data with
    | nil => exact absurd hd (repr_data_ne_nil n)
    | cons c rest =>
      have hc : c.isDigit = true := repr_digits n c (by rw [hd]; exact List.mem_cons_self c rest)
      have hcne : ¬(c = '+' ∨ c = '-') := by
        rintro (rfl | rfl) <;> simp at hc
      simp only [if_neg hcne]

/-! ## Claim C6: the video resolver -/

/-- C6: for any stored `vlogs` collection and entry id, `download_video`
fails with HTTP 404 when no media record matches or the record has no
(truthy) URL, fails with HTTP 500 when the stored URL begins with the
`file://` or `content://` scheme prefix, and otherwise returns an HTTP 302
redirect to the stored URL verbatim. -/
theorem video_resolver_cases (vlogs : List VlogDoc) (eid : String) :
    ((vlogs.find? (fun d => d.entry_id == some eid) = none ∨
      (∃ v, vlogs.find? (fun d => d.entry_id == some eid) = some v ∧
        (v.video_url = none ∨ v.video_url = some ""))) →
      download_video vlogs eid =
        Except.error ⟨404, "Video link not found for entry ID: " ++ eid⟩) ∧
    (∀ v u, vlogs.find? (fun d => d.entry_id == some eid) = some v →
      v.video_url = some u → u ≠ "" →
      (pyStartsWith u "file://" || pyStartsWith u "content://") = true →
      download_video vlogs eid =
        Except.error ⟨500, "Stored video link is a local file URI and cannot be served by the public backend."⟩) ∧
    (∀ v u, vlogs.find? (fun d => d.entry_id == some eid) = some v →
      v.video_url = some u → u ≠ "" →
      (pyStartsWith u "file://" || pyStartsWith u "content://") = false →
      download_video vlogs eid = Except.ok ⟨302, u⟩) := by
  unfold download_video
  cases hf : vlogs.find? (fun d => d.entry_id == some eid) with
  | none =>
    refine ⟨fun _ => rfl, ?_, ?_⟩ <;> (intro w u hw _hu _hne _hpre; simp at hw)
  | some v =>
    dsimp only
    cases hvu : v.video_url with
    | none =>
      refine ⟨fun _ => rfl, ?_, ?_⟩ <;>
        (intro w u hw hu _hne _hpre
         injection hw with hw
         subst hw
         rw [hvu] at hu
         simp at hu)
    | some u0 =>
      dsimp only
      by_cases hu0 : u0 = ""
      · rw [if_pos hu0]
        refine ⟨fun _ => rfl, ?_, ?_⟩ <;>
          (intro w u hw hu hne _hpre
           injection hw with hw
           subst hw
           rw [hvu] at hu
           injection hu with hu
           subst hu
           exact absurd hu0 hne)
      · rw [if_neg hu0]
        refine ⟨?_, ?_, ?_⟩
        · rintro (h | ⟨w, hw, hurl | hurl⟩)
          · simp at h
          · injection hw with hw
            subst hw
            rw [hvu] at hurl
            simp at hurl
          · injection hw with hw
            subst hw
            rw [hvu] at hurl
            injection hurl with hurl
            exact absurd hurl hu0
        · intro w u hw hu _hne hpre
          injection hw with hw
          subst hw
          rw [hvu] at hu
          injection hu with hu
          subst hu
          rw [if_pos (by simp [hpre])]
        · intro w u hw hu _hne hpre
          injection hw with hw
          subst hw
          rw [hvu] at hu
          injection hu with hu
          subst hu
          rw [if_neg (by simp [hpre])]

/-- Witness for C6: a missing record yields 404, a `file://` URL yields
500, and an `https://` URL yields a 302 redirect to that exact URL. -/
theorem video_resolver_cases_witness :
    download_video [] "0001" =
      Except.error ⟨404, "Video link not found for entry ID: " ++ "0001"⟩ ∧
    download_video [⟨some "0001", some "a", some "t", some "file:///local/path.mp4"⟩] "0001" =
      Except.error ⟨500, "Stored video link is a local file URI and cannot be served by the public backend."⟩ ∧
    download_video [⟨some "0001", some "a", some "t", some "https://example.com/v.mp4"⟩] "0001" =
      Except.ok ⟨302, "https://example.com/v.mp4"⟩ := by
  refine ⟨?_, ?_, ?_⟩
  · exact (video_resolver_cases [] "0001").1 (Or.inl rfl)
  · exact (video_resolver_cases
      [⟨some "0001", some "a", some "t", some "file:///local/path.mp4"⟩] "0001").2.1
      _ _ rfl rfl (by decide) (by decide)
  · exact (video_resolver_cases
      [⟨some "0001", some "a", some "t", some "https://example.com/v.mp4"⟩] "0001").2.2
      _ _ rfl rfl (by decide) (by decide)

/-! ## Claim C7: incomplete records are excluded from exports -/

theorem all_sort_filter {α : Type} (key : α → String) (p : α → Bool) (l : List α) :
    ((sortByKey key (l.filter p)).all p) = true := by
  rw [all_sortByKey]
  exact List.all_eq_true.mpr (fun x hx => (List.mem_filter.mp hx).2)

/-- C7: in every stored state, every record in each of the three lists of
the JSON export and of the dashboard context has a present, non-empty
`entry_id`; records with an empty or absent `entry_id` are excluded. -/
theorem exports_have_entry_ids (db : DB) (now : String) :
    ((download_all_json db now).sentiments.all (fun d => truthyEntryId d.entry_id)) = true ∧
    ((download_all_json db now).gps.all (fun d => truthyEntryId d.entry_id)) = true ∧
    ((download_all_json db now).vlogs.all (fun d => truthyEntryId d.entry_id)) = true ∧
    ((export_all_data db now).sentiments.all (fun d => truthyEntryId d.entry_id)) = true ∧
    ((export_all_data db now).gps.all (fun d => truthyEntryId d.entry_id)) = true ∧
    ((export_all_data db now).vlogs.all (fun d => truthyEntryId d.entry_id)) = true := by
  refine ⟨?_, ?_, ?_, ?_, ?_, ?_⟩ <;>
    exact all_sort_filter _ _ _

/-! ## Claim C8: export lists are sorted lexicographically by entry_id -/

/-- C8: in every export result (JSON and dashboard), each of the three
lists is sorted in non-decreasing code-point-lexicographic order of the
`entry_id` string (string comparison, not numeric), for every stored
state, including states violating the zero-padding invariant. -/
theorem exports_sorted_by_entry_id (db : DB) (now : String) :
    (download_all_json db now).sentiments.Pairwise
      (fun a b => pyStrLe (sentOutKey a) (sentOutKey b) = true) ∧
    (download_all_json db now).gps.Pairwise
      (fun a b => pyStrLe (gpsOutKey a) (gpsOutKey b) = true) ∧
    (download_all_json db now).vlogs.Pairwise
      (fun a b => pyStrLe (vlogOutKey a) (vlogOutKey b) = true) ∧
    (export_all_data db now).sentiments.Pairwise
      (fun a b => pyStrLe (sentOutKey a) (sentOutKey b) = true) ∧
    (export_all_data db now).gps.Pairwise
      (fun a b => pyStrLe (gpsOutKey a) (gpsOutKey b) = true) ∧
    (export_all_data db now).vlogs.Pairwise
      (fun a b => pyStrLe (vlogOutKey a) (vlogOutKey b) = true) := by
  refine ⟨?_, ?_, ?_, ?_, ?_, ?_⟩ <;>
    exact pairwise_sortByKey _ _

/-! ## Claim C9: clear-all resets the store -/

/-- C9: after a successful clear-all, the export returns empty lists for
all three record sets, the counter document is removed, and the next
allocation returns 1. -/
theorem clear_all_resets (db : DB) (now : String) :
    (clear_all_data db).2 =
      Except.ok ⟨"All data cleared successfully.",
                 ["sentiments", "gps_coordinates", "vlogs"], "reset"⟩ ∧
    (download_all_json (clear_all_data db).1 now).sentiments = [] ∧
    (download_all_json (clear_all_data db).1 now).gps = [] ∧
    (download_all_json (clear_all_data db).1 now).vlogs = [] ∧
    (clear_all_data db).1.counters = [] ∧
    (get_next_sequence_value (clear_all_data db).1.counters "emogo_entry_id").2 =
      Except.ok 1 :=
  ⟨rfl, rfl, rfl, rfl, rfl, rfl⟩

/-! ## Claim C10: order and frame of the clear-all deletions -/

/-- C10: the clear-all deletions run in the fixed order `sentiments`,
`gps_coordinates`, `vlogs`, counter; if a step's `delete_many` raises, the
handler reports HTTP 500, the earlier sets are already emptied, and the
later sets and the counter collection are untouched — in particular the
counter collection is cleared only when all three record-set deletions
succeeded. -/
theorem clear_failure_frame (db : DB) (s : ClearStep) :
    (clear_all_data_gen db (some s)).2 = Except.error ⟨500, "Failed to clear data: "⟩ ∧
    (s = ClearStep.sentiments →
      (clear_all_data_gen db (some s)).1.gps_coordinates = db.gps_coordinates ∧
      (clear_all_data_gen db (some s)).1.vlogs = db.vlogs ∧
      (clear_all_data_gen db (some s)).1.counters = db.counters) ∧
    (s = ClearStep.gps →
      (clear_all_data_gen db (some s)).1.sentiments = [] ∧
      (clear_all_data_gen db (some s)).1.vlogs = db.vlogs ∧
      (clear_all_data_gen db (some s)).1.counters = db.counters) ∧
    (s = ClearStep.vlogs →
      (clear_all_data_gen db (some s)).1.sentiments = [] ∧
      (clear_all_data_gen db (some s)).1.gps_coordinates = [] ∧
      (clear_all_data_gen db (some s)).1.counters = db.counters) ∧
    (s = ClearStep.counter →
      (clear_all_data_gen db (some s)).1.sentiments = [] ∧
      (clear_all_data_gen db (some s)).1.gps_coordinates = [] ∧
      (clear_all_data_gen db (some s)).1.vlogs = [] ∧
      (clear_all_data_gen db (some s)).1.counters = db.counters) := by
  cases s <;>
    refine ⟨rfl, ?_, ?_, ?_, ?_⟩ <;>
    intro h <;>
    first
      | exact ⟨rfl, rfl, rfl⟩
      | exact ⟨rfl, rfl, rfl, rfl⟩
      | simp at h

/-- Witness for C10 at a one-document store with the `gps_coordinates`
deletion failing: the handler reports 500, `sentiments` is already
emptied, and `vlogs` and the counter collection are untouched. -/
theorem clear_failure_frame_witness :
    (clear_all_data_gen
        ⟨[⟨some "0001", some "a", some "t", some "G", none⟩],
         [⟨some "0001", some "a", some "t", some 1, some 2⟩],
         [⟨some "0001", some "a", some "t", some "u"⟩],
         [⟨"emogo_entry_id", some 1⟩]⟩ (some ClearStep.gps)).2 =
      Except.error ⟨500, "Failed to clear data: "⟩ ∧
    ((clear_all_data_gen
        ⟨[⟨some "0001", some "a", some "t", some "G", none⟩],
         [⟨some "0001", some "a", some "t", some 1, some 2⟩],
         [⟨some "0001", some "a", some "t", some "u"⟩],
         [⟨"emogo_entry_id", some 1⟩]⟩ (some ClearStep.gps)).1.sentiments = [] ∧
      (clear_all_data_gen
        ⟨[⟨some "0001", some "a", some "t", some "G", none⟩],
         [⟨some "0001", some "a", some "t", some 1, some 2⟩],
         [⟨some "0001", some "a", some "t", some "u"⟩],
         [⟨"emogo_entry_id", some 1⟩]⟩ (some ClearStep.gps)).1.vlogs =
        [⟨some "0001", some "a", some "t", some "u"⟩] ∧
      (clear_all_data_gen
        ⟨[⟨some "0001", some "a", some "t", some "G", none⟩],
         [⟨some "0001", some "a", some "t", some 1, some 2⟩],
         [⟨some "0001", some "a", some "t", some "u"⟩],
         [⟨"emogo_entry_id", some 1⟩]⟩ (some ClearStep.gps)).1.counters =
        [⟨"emogo_entry_id", some 1⟩]) :=
  ⟨(clear_failure_frame _ ClearStep.gps).1,
   (clear_failure_frame _ ClearStep.gps).2.2.1 rfl⟩

/-! ## Claim C5: allocation failure performs no record-set writes -/

/-- C5: when the store returns no valid post-update counter document (the
raw driver result is `None` or lacks `seq`), the submission handler raises
HTTP 500 and writes to none of the three record sets. -/
theorem alloc_failure_no_writes (db : DB) (data : EmoGoData) (raw : Option CounterDoc)
    (hbad : raw = none ∨ ∃ d, raw = some d ∧ d.seq = none) :
    (create_all_data_withRaw db data raw).2 =
      Except.error ⟨500, "Failed to generate sequential ID: MongoDB failed to return valid sequence value after attempt to increment."⟩ ∧
    (create_all_data_withRaw db data raw).1.sentiments = db.sentiments ∧
    (create_all_data_withRaw db data raw).1.gps_coordinates = db.gps_coordinates ∧
    (create_all_data_withRaw db data raw).1.vlogs = db.vlogs := by
  rcases hbad with rfl | ⟨d, rfl, hseq⟩
  · exact ⟨rfl, rfl, rfl, rfl⟩
  · obtain ⟨dk, dseq⟩ := d
    dsimp only at hseq
    subst hseq
    exact ⟨rfl, rfl, rfl, rfl⟩

/-- Witness for C5 at a one-document store and a `None` driver result:
the response is the 500 error and the `sentiments` set is unchanged. -/
theorem alloc_failure_no_writes_witness :
    (create_all_data_withRaw
        ⟨[⟨some "0001", some "a", some "t", some "G", none⟩], [], [], []⟩
        ⟨"b", "t2", "Bad", 1, 2, "u", none⟩ none).2 =
      Except.error ⟨500, "Failed to generate sequential ID: MongoDB failed to return valid sequence value after attempt to increment."⟩ ∧
    (create_all_data_withRaw
        ⟨[⟨some "0001", some "a", some "t", some "G", none⟩], [], [], []⟩
        ⟨"b", "t2", "Bad", 1, 2, "u", none⟩ none).1.sentiments =
      [⟨some "0001", some "a", some "t", some "G", none⟩] :=
  ⟨(alloc_failure_no_writes _ _ none (Or.inl rfl)).1,
   (alloc_failure_no_writes _ _ none (Or.inl rfl)).2.1⟩

/-! ## Pipeline lemmas shared by the round-trip and delete claims -/

theorem pyZfill4_ne_empty (s : String) : pyZfill s 4 ≠ "" := by
  unfold pyZfill
  by_cases h : (4 : Nat) ≤ s.length
  · rw [if_pos h]
    intro he
    rw [he] at h
    simp [String.length] at h
  · rw [if_neg h]
    cases hd : s.data with
    | nil =>
      intro he
      have hdata := congrArg String.data he
      simp at hdata
    | cons c rest =>
      by_cases hc : c = '+' ∨ c = '-'
      · simp only [if_pos hc]
        intro he
        have hdata := congrArg String.data he
        simp at hdata
      · simp only [if_neg hc]
        intro he
        have hdata := congrArg String.data he
        simp at hdata

theorem entryIdOf_ne_empty (n : Int) : entryIdOf n ≠ "" :=
  pyZfill4_ne_empty (toString n)

theorem nextEntryId_ne_empty (db : DB) : nextEntryId db ≠ "" :=
  entryIdOf_ne_empty _

theorem pipeline_filter_single {α β : Type} (f : α → β) (p q : β → Bool) (key : β → String)
    (l : List α) (x : α)
    (hlen : l.length < 1000)
    (hpx : p (f x) = true) (hqx : q (f x) = true)
    (hql : ∀ a ∈ l, q (f a) = false) :
    (sortByKey key ((((l ++ [x]).take 1000).map f).filter p)).filter q = [f x] := by
  have htake : (l ++ [x]).take 1000 = l ++ [x] :=
    List.take_of_length_le (by simp; omega)
  rw [htake, List.map_append, List.filter_append]
  have h1 : List.filter p (List.map f [x]) = [f x] := by simp [hpx]
  rw [h1]
  have hperm := (perm_sortByKey key (List.filter p (List.map f l) ++ [f x])).filter q
  have h2 : List.filter q (List.filter p (List.map f l) ++ [f x]) = [f x] := by
    rw [List.filter_append]
    have h3 : List.filter q (List.filter p (List.map f l)) = [] := by
      rw [List.filter_eq_nil_iff]
      intro b hb
      obtain ⟨a, ha, rfl⟩ := List.mem_map.mp (List.mem_of_mem_filter hb)
      simp [hql a ha]
    simp [h3, hqx]
  rw [h2] at hperm
  exact List.perm_singleton.mp hperm

theorem mem_pipeline {α β : Type} (f : α → β) (p : β → Bool) (key : β → String)
    (l : List α) (e : β)
    (he : e ∈ sortByKey key (((l.take 1000).map f).filter p)) :
    ∃ d ∈ l, e = f d := by
  rw [mem_sortByKey] at he
  obtain ⟨a, ha, rfl⟩ := List.mem_map.mp (List.mem_of_mem_filter he)
  exact ⟨a, List.take_subset 1000 l ha, rfl⟩

/-! ## Claim C3: submit-then-export round trip -/

/-- C3 as stated is false: for a valid submission whose timestamp carries a
trailing `Z`, the exported record's timestamp field is the re-parsed
`datetime`, not the submitted string (and even its JSON rendering
`isoformat` differs from the submitted string). -/
theorem roundtrip_timestamp_not_verbatim :
    (download_all_json
        (create_all_data ⟨[], [], [], []⟩
          ⟨"alice", "2025-01-02T03:04:05Z", "Good", 1, 2, "https://example.com/v.mp4", none⟩).1
        "now").sentiments =
      [⟨some "0001", some "alice", some (TValue.dt ⟨2025, 1, 2, 3, 4, 5, 0, some 0⟩),
        some "Good", none⟩] ∧
    TValue.dt ⟨2025, 1, 2, 3, 4, 5, 0, some 0⟩ ≠ TValue.str "2025-01-02T03:04:05Z" ∧
    pyIsoformat ⟨2025, 1, 2, 3, 4, 5, 0, some 0⟩ ≠ "2025-01-02T03:04:05Z" := by
  refine ⟨by decide, by decide, by decide⟩

/-- C3 (amended): submitting a valid entry on a state whose record sets
hold fewer than 1000 documents and contain no record with the
to-be-allocated `entry_id`, then exporting, yields exactly one location,
one sentiment, and one media record carrying that shared `entry_id`; each
field equals the submitted value verbatim except the timestamp, which is
preserved only up to the documented ISO re-parse (`serializeTs`). -/
theorem submit_export_roundtrip (db : DB) (data : EmoGoData) (now : String)
    (hslen : db.sentiments.length < 1000)
    (hglen : db.gps_coordinates.length < 1000)
    (hvlen : db.vlogs.length < 1000)
    (hsfresh : ∀ d ∈ db.sentiments, d.entry_id ≠ some (nextEntryId db))
    (hgfresh : ∀ d ∈ db.gps_coordinates, d.entry_id ≠ some (nextEntryId db))
    (hvfresh : ∀ d ∈ db.vlogs, d.entry_id ≠ some (nextEntryId db)) :
    (create_all_data db data).2 =
      Except.ok ⟨"Data saved to 3 collections successfully", nextEntryId db⟩ ∧
    ((download_all_json (create_all_data db data).1 now).sentiments.filter
        (fun d => d.entry_id == some (nextEntryId db))) =
      [⟨some (nextEntryId db), some data.NAME, some (serializeTs data.TIME),
        some data.SENTIMENT, data.ACTIVITY⟩] ∧
    ((download_all_json (create_all_data db data).1 now).gps.filter
        (fun d => d.entry_id == some (nextEntryId db))) =
      [⟨some (nextEntryId db), some data.NAME, some (serializeTs data.TIME),
        some data.LAT, some data.LON⟩] ∧
    ((download_all_json (create_all_data db data).1 now).vlogs.filter
        (fun d => d.entry_id == some (nextEntryId db))) =
      [⟨some (nextEntryId db), some data.NAME, some (serializeTs data.TIME),
        some data.VIDEO_LINK⟩] := by
  obtain ⟨h2, h1⟩ := counterIncUpsert_spec db.counters "emogo_entry_id" 1
  rcases hp : counterIncUpsert db.counters "emogo_entry_id" 1 with ⟨cs2v, dv⟩
  rw [hp] at h2 h1
  simp only at h2 h1
  subst h2
  have hred : create_all_data db data =
      ({ sentiments := db.sentiments ++
           [⟨some (nextEntryId db), some data.NAME, some data.TIME, some data.SENTIMENT,
             data.ACTIVITY⟩]
         gps_coordinates := db.gps_coordinates ++
           [⟨some (nextEntryId db), some data.NAME, some data.TIME, some data.LAT,
             some data.LON⟩]
         vlogs := db.vlogs ++
           [⟨some (nextEntryId db), some data.NAME, some data.TIME, some data.VIDEO_LINK⟩]
         counters := cs2v },
       Except.ok ⟨"Data saved to 3 collections successfully", nextEntryId db⟩) := by
    unfold create_all_data
    rw [hp]
    rfl
  rw [hred]
  refine ⟨rfl, ?_, ?_, ?_⟩
  · exact pipeline_filter_single serialize_sentiment _ _ sentOutKey db.sentiments _
      hslen
      (by simp [serialize_sentiment, truthyEntryId, nextEntryId_ne_empty])
      (by simp [serialize_sentiment])
      (fun a ha => by simp [serialize_sentiment, hsfresh a ha])
  · exact pipeline_filter_single serialize_gps _ _ gpsOutKey db.gps_coordinates _
      hglen
      (by simp [serialize_gps, truthyEntryId, nextEntryId_ne_empty])
      (by simp [serialize_gps])
      (fun a ha => by simp [serialize_gps, hgfresh a ha])
  · exact pipeline_filter_single serialize_vlog _ _ vlogOutKey db.vlogs _
      hvlen
      (by simp [serialize_vlog, truthyEntryId, nextEntryId_ne_empty])
      (by simp [serialize_vlog])
      (fun a ha => by simp [serialize_vlog, hvfresh a ha])

/-- Witness for the amended C3 on the empty store: the export of a single
submission is exactly the three submitted records under entry id
`"0001"`. -/
theorem submit_export_roundtrip_witness :
    ((download_all_json
        (create_all_data ⟨[], [], [], []⟩
          ⟨"bob", "2025-06-07T08:09:10", "Very Bad", 7, 8, "https://example.com/w.mp4",
           some "hiking"⟩).1 "now").sentiments.filter
      (fun d => d.entry_id == some (nextEntryId ⟨[], [], [], []⟩))) =
      [⟨some (nextEntryId ⟨[], [], [], []⟩), some "bob",
        some (serializeTs "2025-06-07T08:09:10"), some "Very Bad", some "hiking"⟩] :=
  (submit_export_roundtrip ⟨[], [], [], []⟩
    ⟨"bob", "2025-06-07T08:09:10", "Very Bad", 7, 8, "https://example.com/w.mp4",
     some "hiking"⟩ "now"
    (by decide) (by decide) (by decide)
    (by intro d hd; simp at hd) (by intro d hd; simp at hd)
    (by intro d hd; simp at hd)).2.1

/-! ## Claim C1: single-entry delete (spec-modelled endpoint) -/

theorem filter_not_eraseP {α : Type} (p : α → Bool) (l : List α) :
    (l.eraseP p).filter (fun a => !p a) = l.filter (fun a => !p a) := by
  induction l with
  | nil => rfl
  | cons a as ih =>
    by_cases hpa : p a = true
    · rw [List.eraseP_cons_of_pos hpa, List.filter_cons_of_neg (by simp [hpa])]
    · rw [List.eraseP_cons_of_neg hpa, List.filter_cons_of_pos (by simp [hpa]),
        List.filter_cons_of_pos (by simp [hpa]), ih]

theorem length_eraseP_le {α : Type} (p : α → Bool) (l : List α) :
    (l.eraseP p).length ≤ l.length ∧ l.length ≤ (l.eraseP p).length + 1 := by
  by_cases h : l.any p = true
  · obtain ⟨a, ha, hpa⟩ := List.any_eq_true.mp h
    have := List.length_eraseP_of_mem ha hpa
    have hpos : 1 ≤ l.length := List.length_pos.mpr (List.ne_nil_of_mem ha)
    omega
  · rw [List.eraseP_of_forall_not (by simpa using h)]
    omega

theorem eraseP_no_match_of_countP_le_one {α : Type} (p : α → Bool) (l : List α)
    (h : l.countP p ≤ 1) : ∀ a ∈ l.eraseP p, p a = false := by
  induction l with
  | nil => simp
  | cons b bs ih =>
    by_cases hpb : p b = true
    · rw [List.eraseP_cons_of_pos hpb]
      rw [List.countP_cons_of_pos _ _ hpb] at h
      intro a ha
      have := List.countP_eq_zero.mp (by omega : bs.countP p = 0) a ha
      simpa using this
    · rw [List.eraseP_cons_of_neg hpb]
      rw [List.countP_cons_of_neg _ _ hpb] at h
      intro a ha
      rcases List.mem_cons.mp ha with rfl | ha
      · simpa using hpb
      · exact ih h a ha

/-- `delete_entry` as a single case split on whether any set matched. -/
theorem delete_entry_cases (db : DB) (u t : String) :
    delete_entry db u t =
      if (db.sentiments.any (sentMatch u t) || db.gps_coordinates.any (gpsMatch u t)
          || db.vlogs.any (vlogMatch u t)) then
        ({ sentiments := db.sentiments.eraseP (sentMatch u t)
           gps_coordinates := db.gps_coordinates.eraseP (gpsMatch u t)
           vlogs := db.vlogs.eraseP (vlogMatch u t)
           counters := (counterIncUpsert db.counters "emogo_entry_id" (-1)).1 },
         Except.ok "Entry deleted successfully.")
      else
        (db, Except.error ⟨404, "No entry found for the given user_name and timestamp."⟩) := by
  unfold delete_entry
  rcases hp : counterIncUpsert db.counters "emogo_entry_id" (-1) with ⟨cs2, d⟩
  cases hs : db.sentiments.any (sentMatch u t) <;>
    cases hg : db.gps_coordinates.any (gpsMatch u t) <;>
    cases hv : db.vlogs.any (vlogMatch u t) <;>
    simp [hp]

/-- C1 (amended, spec-modelled endpoint): for every stored state,
`delete_entry` removes at most one record per record set, and only records
matching `(user_name, timestamp)` by exact string equality; it fails with
HTTP 404 exactly when all three sets have no matching record, and on
success decrements the allocator's stored counter by exactly 1; and
provided each set held at most one matching record, every record of every
exported list after a successful delete is the serialization of a stored
record that does not match `(user_name, timestamp)` — the deleted entry
appears in none of the three exported lists. -/
theorem delete_entry_spec (db : DB) (u t now : String) :
    ((delete_entry db u t).2 =
        Except.error ⟨404, "No entry found for the given user_name and timestamp."⟩ ↔
      db.sentiments.any (sentMatch u t) = false ∧
      db.gps_coordinates.any (gpsMatch u t) = false ∧
      db.vlogs.any (vlogMatch u t) = false) ∧
    ((delete_entry db u t).2 = Except.ok "Entry deleted successfully." →
      seqVal (delete_entry db u t).1.counters "emogo_entry_id" =
        seqVal db.counters "emogo_entry_id" - 1) ∧
    ((delete_entry db u t).1.sentiments.filter (fun d => !sentMatch u t d) =
        db.sentiments.filter (fun d => !sentMatch u t d) ∧
      (delete_entry db u t).1.sentiments.length ≤ db.sentiments.length ∧
      db.sentiments.length ≤ (delete_entry db u t).1.sentiments.length + 1) ∧
    ((delete_entry db u t).1.gps_coordinates.filter (fun d => !gpsMatch u t d) =
        db.gps_coordinates.filter (fun d => !gpsMatch u t d) ∧
      (delete_entry db u t).1.gps_coordinates.length ≤ db.gps_coordinates.length ∧
      db.gps_coordinates.length ≤ (delete_entry db u t).1.gps_coordinates.length + 1) ∧
    ((delete_entry db u t).1.vlogs.filter (fun d => !vlogMatch u t d) =
        db.vlogs.filter (fun d => !vlogMatch u t d) ∧
      (delete_entry db u t).1.vlogs.length ≤ db.vlogs.length ∧
      db.vlogs.length ≤ (delete_entry db u t).1.vlogs.length + 1) ∧
    (db.sentiments.countP (sentMatch u t) ≤ 1 →
      db.gps_coordinates.countP (gpsMatch u t) ≤ 1 →
      db.vlogs.countP (vlogMatch u t) ≤ 1 →
      (delete_entry db u t).2 = Except.ok "Entry deleted successfully." →
      (∀ e ∈ (download_all_json (delete_entry db u t).1 now).sentiments,
        ∃ d, d ∈ (delete_entry db u t).1.sentiments ∧ e = serialize_sentiment d ∧
          sentMatch u t d = false) ∧
      (∀ e ∈ (download_all_json (delete_entry db u t).1 now).gps,
        ∃ d, d ∈ (delete_entry db u t).1.gps_coordinates ∧ e = serialize_gps d ∧
          gpsMatch u t d = false) ∧
      (∀ e ∈ (download_all_json (delete_entry db u t).1 now).vlogs,
        ∃ d, d ∈ (delete_entry db u t).1.vlogs ∧ e = serialize_vlog d ∧
          vlogMatch u t d = false)) := by
  rw [delete_entry_cases db u t]
  cases hcond : (db.sentiments.any (sentMatch u t) || db.gps_coordinates.any (gpsMatch u t)
      || db.vlogs.any (vlogMatch u t)) with
  | false =>
    rw [if_neg (by simp [hcond])]
    have hsplit := hcond
    simp only [Bool.or_eq_false_iff] at hsplit
    obtain ⟨⟨hs, hg⟩, hv⟩ := hsplit
    refine ⟨by simp [hs, hg, hv], by simp, ⟨rfl, le_refl _, Nat.le_succ _⟩,
      ⟨rfl, le_refl _, Nat.le_succ _⟩, ⟨rfl, le_refl _, Nat.le_succ _⟩, ?_⟩
    intro _ _ _ hok
    simp at hok
  | true =>
    rw [if_pos (by simp [hcond])]
    have hseq := (counterIncUpsert_spec db.counters "emogo_entry_id" (-1)).2
    refine ⟨?_, ?_, ?_, ?_, ?_, ?_⟩
    · constructor
      · intro h
        simp at h
      · rintro ⟨hs, hg, hv⟩
        rw [hs, hg, hv] at hcond
        simp at hcond
    · intro _
      simpa using hseq
    · exact ⟨filter_not_eraseP _ _, (length_eraseP_le _ _).1, (length_eraseP_le _ _).2⟩
    · exact ⟨filter_not_eraseP _ _, (length_eraseP_le _ _).1, (length_eraseP_le _ _).2⟩
    · exact ⟨filter_not_eraseP _ _, (length_eraseP_le _ _).1, (length_eraseP_le _ _).2⟩
    · intro hcs hcg hcv _
      refine ⟨?_, ?_, ?_⟩
      · intro e he
        obtain ⟨d, hd, rfl⟩ := mem_pipeline serialize_sentiment _ sentOutKey _ e he
        exact ⟨d, hd, rfl, eraseP_no_match_of_countP_le_one _ _ hcs d hd⟩
      · intro e he
        obtain ⟨d, hd, rfl⟩ := mem_pipeline serialize_gps _ gpsOutKey _ e he
        exact ⟨d, hd, rfl, eraseP_no_match_of_countP_le_one _ _ hcg d hd⟩
      · intro e he
        obtain ⟨d, hd, rfl⟩ := mem_pipeline serialize_vlog _ vlogOutKey _ e he
        exact ⟨d, hd, rfl, eraseP_no_match_of_countP_le_one _ _ hcv d hd⟩

/-- C1 as stated is false on states holding duplicate matching records:
with two identical sentiment documents for `("alice", "tt")`, the delete
succeeds (removing one of them), yet a record with that
`(user_name, timestamp)` still appears in the exported sentiments list. -/
theorem delete_leaves_duplicate_in_export :
    (delete_entry
        ⟨[⟨some "0001", some "alice", some "tt", some "Good", none⟩,
          ⟨some "0001", some "alice", some "tt", some "Good", none⟩], [], [],
         [⟨"emogo_entry_id", some 2⟩]⟩ "alice" "tt").2 =
      Except.ok "Entry deleted successfully." ∧
    ((download_all_json
        (delete_entry
          ⟨[⟨some "0001", some "alice", some "tt", some "Good", none⟩,
            ⟨some "0001", some "alice", some "tt", some "Good", none⟩], [], [],
           [⟨"emogo_entry_id", some 2⟩]⟩ "alice" "tt").1 "now").sentiments.any
      (fun e => e.user_name == some "alice" && e.timestamp == some (TValue.str "tt"))) =
      true := by
  refine ⟨by decide, by decide⟩

/-- Witness for the amended C1: on the empty store the delete reports 404,
and on a store with one matching sentiment record the delete succeeds and
the counter's `seq` drops by exactly 1. -/
theorem delete_entry_spec_witness :
    (delete_entry ⟨[], [], [], []⟩ "alice" "tt").2 =
      Except.error ⟨404, "No entry found for the given user_name and timestamp."⟩ ∧
    seqVal (delete_entry
        ⟨[⟨some "0001", some "alice", some "tt", some "Good", none⟩], [], [],
         [⟨"emogo_entry_id", some 1⟩]⟩ "alice" "tt").1.counters "emogo_entry_id" =
      seqVal [(⟨"emogo_entry_id", some 1⟩ : CounterDoc)] "emogo_entry_id" - 1 :=
  ⟨(delete_entry_spec ⟨[], [], [], []⟩ "alice" "tt" "x").1.mpr ⟨rfl, rfl, rfl⟩,
   (delete_entry_spec
      ⟨[⟨some "0001", some "alice", some "tt", some "Good", none⟩], [], [],
       [⟨"emogo_entry_id", some 1⟩]⟩ "alice" "tt" "x").2.1 (by decide)⟩
